import Mathlib

/-!
Verification of the contacts-management web API's authentication/session and
role-authorization logic against its design specification.

The Python sources are shallowly embedded: JWT payloads become association
lists of claims, `jwt.encode`/`jwt.decode` become a pair of functions over a
`JWT` structure carrying the payload and the signing key, raised exceptions
become an error type threaded through `Except`, the relational store becomes a
list of `User` rows threaded explicitly, and the session cache becomes an
association list from keys to values with absolute expiry instants.  Time
(`datetime.utcnow()`) is an explicit `Nat` parameter counting seconds.
-/

namespace ContactsApi

/-- A JSON claim value as it occurs in a JWT payload dictionary. -/
inductive JVal where
  | s (str : String)
  | n (num : Nat)
  | null
deriving DecidableEq, Repr

/-- A JWT payload: a Python dict from claim names to values
(association list with unique keys, insertion ordered). -/
def Payload := List (String × JVal)
deriving DecidableEq, Repr

/-- Python `payload[k]` as a partial lookup (`none` models a `KeyError`). -/
def Payload.get? (p : Payload) (k : String) : Option JVal :=
  (List.find? (fun kv => kv.1 = k) p).map (fun kv => kv.2)

/-- Python `dict.__setitem__`: overwrite the value at `k` in place, or append. -/
def Payload.set : Payload → String → JVal → Payload
  | [], k, v => [(k, v)]
  | (k', v') :: rest, k, v =>
      if k' = k then (k, v) :: rest else (k', v') :: Payload.set rest k v

/-- Python `dict.update`: apply each key/value assignment in order. -/
def Payload.update (p : Payload) (kvs : List (String × JVal)) : Payload :=
  kvs.foldl (fun acc kv => Payload.set acc kv.1 kv.2) p

/-- A signed token (`jwt.encode` output): the claims plus the signing key.
Two tokens are byte-for-byte equal exactly when payload and key agree. -/
structure JWT where
  payload : Payload
  key : String
deriving DecidableEq, Repr

/-- `jose.jwt.encode(payload, key, algorithm)`. -/
def jwtEncode (payload : Payload) (key : String) : JWT :=
  { payload := payload, key := key }

/-- `jose.jwt.decode(token, key, algorithms)`: fails (raises `JWTError`) when
the signature key does not match or the `exp` claim has passed; otherwise
returns the payload. -/
def jwtDecode (tok : JWT) (key : String) (now : Nat) : Option Payload :=
  if tok.key = key then
    match Payload.get? tok.payload "exp" with
    | some (JVal.n e) => if now < e then some tok.payload else none
    | _ => some tok.payload
  else
    none

/-- Errors a request handler can surface: an `HTTPException(status, detail)`,
a Python `KeyError` escaping a handler, or an `AttributeError`
(attribute access on `None`). -/
inductive PyError where
  | httpError (statusCode : Nat) (detail : String)
  | keyError (key : String)
  | attributeError
deriving DecidableEq, Repr

/-- Starlette's `HTTPException.__str__`, used by the signup handler's
blanket `except Exception as e: ... detail=str(e)`. -/
def strOfPyError : PyError → String
  | PyError.httpError c d => toString c ++ ": " ++ d
  | PyError.keyError k => "\x27" ++ k ++ "\x27"
  | PyError.attributeError => "AttributeError"

/-- Modelled from the spec: `src/entity/models.py` is not among the sources;
the spec fixes the role enumeration as regular, moderator, admin
(`src/routes/contacts.py` references `Role.admin` and `Role.moderator`). -/
inductive Role where
  | regular
  | moderator
  | admin
deriving DecidableEq, Repr

/-- A `users` table row (`src/entity/models.py`, fields as used throughout
`src/` and described by the spec's data model).  The persisted refresh token
is the token string; in this embedding a token string is a `JWT` value. -/
structure User where
  id : Nat
  username : String
  email : String
  password : String
  confirmed : Bool
  refresh_token : Option JWT
  avatar : Option String
  role : Role
deriving DecidableEq, Repr

/-- A `contacts` table row, owned by exactly one user via its foreign key. -/
structure Contact where
  id : Nat
  name : String
  lastname : String
  email : String
  phone : String
  user_id : Nat
deriving DecidableEq, Repr

/-- Modelled from the spec: `src/conf/config.py` is not among the sources;
all tokens use one process-wide symmetric signing secret. -/
def SECRET_KEY : String := "SECRET_KEY_JWT"

/-- Modelled from the spec: `src/conf/messages.py` is not among the sources;
the duplicate-signup message constant referenced by `src/routes/auth.py`. -/
def ACCOUNT_EXIST : String := "Account already exists"

/-- Modelled from the spec: message for a login email that does not exist. -/
def EMAIL_NOT_FOUND : String := "Email not found"

/-- Modelled from the spec: message for a login on an unconfirmed email. -/
def EMAIL_NOT_CONFIRMED : String := "Email not confirmed"

/-- Modelled from the spec: message for a login with a wrong password. -/
def INCORRECT_PASSWORD : String := "Incorrect password"

/-- Modelled from the spec: message for a refresh-token mismatch. -/
def INVALID_REFRESH_TOKEN : String := "Invalid refresh token"

/-- Modelled from the spec: message for confirming an unknown account. -/
def USER_NOT_FOUND : String := "User not found"

/-- Modelled from the spec: passlib's bcrypt hashing is an external
primitive; it is modelled as an injective tagging of the plaintext, which
preserves the only observable contract the handlers rely on
(`verify_password p (get_password_hash p) = true`). -/
def get_password_hash (password : String) : String :=
  "$bcrypt$" ++ password

/-- `Auth.verify_password` (src/services/auth.py, lines 32-41): bcrypt
verification of a plaintext against a stored hash. -/
def verify_password (plain_password hashed_password : String) : Bool :=
  hashed_password = get_password_hash plain_password

/-- `Auth.create_access_token` (src/services/auth.py, lines 53-70):
`expire` is `now + expires_delta` seconds when `expires_delta` is truthy
(a non-`None`, non-zero float) and `now + 15` minutes otherwise; the payload
gains `iat`, `exp` and `scope = "access_token"` and is signed. -/
def create_access_token (data : Payload) (expires_delta : Option Nat)
    (now : Nat) : JWT :=
  let to_encode := data
  let expire : Nat :=
    match expires_delta with
    | some d => if d ≠ 0 then now + d else now + 15 * 60
    | none => now + 15 * 60
  let to_encode := Payload.update to_encode
    [("iat", JVal.n now), ("exp", JVal.n expire), ("scope", JVal.s "access_token")]
  jwtEncode to_encode SECRET_KEY

/-- `Auth.create_refresh_token` (src/services/auth.py, lines 72-89):
same shape as the access token with a 7-day default lifetime and
`scope = "refresh_token"`. -/
def create_refresh_token (data : Payload) (expires_delta : Option Nat)
    (now : Nat) : JWT :=
  let to_encode := data
  let expire : Nat :=
    match expires_delta with
    | some d => if d ≠ 0 then now + d else now + 7 * 24 * 60 * 60
    | none => now + 7 * 24 * 60 * 60
  let to_encode := Payload.update to_encode
    [("iat", JVal.n now), ("exp", JVal.n expire), ("scope", JVal.s "refresh_token")]
  jwtEncode to_encode SECRET_KEY

/-- `Auth.decode_refresh_token` (src/services/auth.py, lines 91-107).
The `try` block decodes the token (a `JWTError` becomes the 401
"Could not validate credentials" response) and then reads
`payload[\x27score\x27]` — the literal key in the source, not `scope` —
so a missing `score` claim raises a `KeyError` that the
`except JWTError` clause does not catch. -/
def decode_refresh_token (refresh_token : JWT) (now : Nat) :
    Except PyError String :=
  match jwtDecode refresh_token SECRET_KEY now with
  | none =>
      Except.error (PyError.httpError 401 "Could not validate credentials")
  | some payload =>
      match Payload.get? payload "score" with
      | none => Except.error (PyError.keyError "score")
      | some v =>
          if v = JVal.s "refresh_token" then
            match Payload.get? payload "sub" with
            | none => Except.error (PyError.keyError "sub")
            | some (JVal.s email) => Except.ok email
            | some (JVal.n num) => Except.ok (toString num)
            | some JVal.null => Except.ok "None"
          else
            Except.error
              (PyError.httpError 401 "Invalid scope for requested token")

/-- `Auth.create_email_token` (src/services/auth.py, lines 150-160):
one-day lifetime, `iat` and `exp` only — no scope claim is added. -/
def create_email_token (data : Payload) (now : Nat) : JWT :=
  let to_encode := Payload.update data
    [("iat", JVal.n now), ("exp", JVal.n (now + 24 * 60 * 60))]
  jwtEncode to_encode SECRET_KEY

/-- `Auth.get_email_from_token` (src/services/auth.py, lines 162-175):
decodes the token and returns `payload["sub"]` with no scope check at all;
only a `JWTError` is mapped to the 401 response. -/
def get_email_from_token (token : JWT) (now : Nat) : Except PyError String :=
  match jwtDecode token SECRET_KEY now with
  | none =>
      Except.error (PyError.httpError 401 "Could not validate credentials")
  | some payload =>
      match Payload.get? payload "sub" with
      | none => Except.error (PyError.keyError "sub")
      | some (JVal.s email) => Except.ok email
      | some (JVal.n num) => Except.ok (toString num)
      | some JVal.null => Except.ok "None"

/-- `get_user_by_email` (src/repository/users.py, lines 10-20): first row
of the `users` table whose email matches. -/
def get_user_by_email (email : String) (db : List User) : Option User :=
  List.find? (fun u => u.email = email) db

/-- Replace the first row satisfying `p` by its image under `f`
(an ORM mutation of a fetched row followed by a commit). -/
def updateFirstRow (p : User → Bool) (f : User → User) :
    List User → List User
  | [] => []
  | u :: rest => if p u then f u :: rest else u :: updateFirstRow p f rest

/-- `update_token` (src/repository/users.py, lines 44-53): set the fetched
user row's `refresh_token` column and commit. -/
def update_token (user : User) (token : Option JWT) (db : List User) :
    List User :=
  updateFirstRow (fun u => u.id = user.id)
    (fun u => { u with refresh_token := token }) db

/-- `confirmed_email` (src/repository/users.py, lines 56-65): fetch the row
by email and set its `confirmed` column to `True`.  (When no row matches,
the Python function would raise an `AttributeError`; its only caller checks
existence first, and on an absent row this map is the identity.) -/
def users_confirmed_email (email : String) (db : List User) : List User :=
  updateFirstRow (fun u => u.email = email)
    (fun u => { u with confirmed := true }) db

/-- One entry of the redis session cache: the pickled user snapshot and the
absolute instant at which the key expires. -/
structure CacheEntry where
  value : User
  expiresAt : Nat
deriving DecidableEq, Repr

/-- The redis session cache, keyed by email. -/
def Cache := List (String × CacheEntry)
deriving DecidableEq, Repr

/-- `redis.get`: a key yields its value only while unexpired. -/
def Cache.read (c : Cache) (k : String) (now : Nat) : Option User :=
  match List.find? (fun kv => kv.1 = k) c with
  | some (_, e) => if now < e.expiresAt then some e.value else none
  | none => none

/-- `redis.set` immediately followed by `redis.expire k ttl`. -/
def Cache.setex (c : Cache) (k : String) (v : User) (ttl : Nat) (now : Nat) :
    Cache :=
  (k, { value := v, expiresAt := now + ttl }) ::
    List.filter (fun kv => kv.1 ≠ k) c

/-- `Auth.get_current_user` (src/services/auth.py, lines 109-148): decode the
bearer token, require `scope == "access_token"` and a subject; then resolve
the subject email against the cache first, falling back to the credential
store on a miss and caching the loaded row for 300 seconds.  Returns the
resolved user together with the cache state after the request. -/
def get_current_user (token : JWT) (now : Nat) (cache : Cache)
    (db : List User) : Except PyError (User × Cache) :=
  let credentials_exception :=
    PyError.httpError 401 "Could not validate credentials"
  match jwtDecode token SECRET_KEY now with
  | none => Except.error credentials_exception
  | some payload =>
      match Payload.get? payload "scope" with
      | none => Except.error (PyError.keyError "scope")
      | some v =>
          if v = JVal.s "access_token" then
            match Payload.get? payload "sub" with
            | none => Except.error (PyError.keyError "sub")
            | some JVal.null => Except.error credentials_exception
            | some (JVal.s email) =>
                let user_hash := email
                match Cache.read cache user_hash now with
                | none =>
                    match get_user_by_email email db with
                    | none => Except.error credentials_exception
                    | some user =>
                        Except.ok (user, Cache.setex cache user_hash user 300 now)
                | some user => Except.ok (user, cache)
            | some (JVal.n num) =>
                let user_hash := toString num
                match Cache.read cache user_hash now with
                | none =>
                    match get_user_by_email user_hash db with
                    | none => Except.error credentials_exception
                    | some user =>
                        Except.ok (user, Cache.setex cache user_hash user 300 now)
                | some user => Except.ok (user, cache)
          else
            Except.error credentials_exception

/-- The validated signup request body (src/schemas/user.py, `UserSchema`). -/
structure UserSchema where
  username : String
  email : String
  password : String
deriving DecidableEq, Repr

/-- The `TokenSchema` response body (src/schemas/user.py): the two issued
tokens plus the constant token type. -/
structure TokenResponse where
  access_token : JWT
  refresh_token : JWT
  token_type : String
deriving DecidableEq, Repr

/-- The body of `signup`'s `try` block (src/routes/auth.py, lines 30-38):
reject a duplicate email with a 409, otherwise hash the password and insert
the new row (confirmed false, no refresh token, default role).  `avatar` is
the gravatar lookup's result and `next_id` the store-assigned primary key. -/
def signup_inner (body : UserSchema) (avatar : Option String)
    (next_id : Nat) (db : List User) : Except PyError (User × List User) :=
  match get_user_by_email body.email db with
  | some _ => Except.error (PyError.httpError 409 ACCOUNT_EXIST)
  | none =>
      let new_user : User :=
        { id := next_id
          username := body.username
          email := body.email
          password := get_password_hash body.password
          confirmed := false
          refresh_token := none
          avatar := avatar
          role := Role.regular }
      Except.ok (new_user, db ++ [new_user])

/-- The `signup` handler (src/routes/auth.py, lines 18-41): the whole body
sits inside `try ... except Exception as e: raise HTTPException(400, str(e))`,
and `HTTPException` is itself an `Exception`, so every failure — the 409
conflict included — is re-raised as a 400 wrapping `str(e)`.
Returns the response together with the store state after the request. -/
def signup (body : UserSchema) (avatar : Option String) (next_id : Nat)
    (db : List User) : Except PyError User × List User :=
  match signup_inner body avatar next_id db with
  | Except.error e =>
      (Except.error (PyError.httpError 400 (strOfPyError e)), db)
  | Except.ok (new_user, db') => (Except.ok new_user, db')

/-- The `login` handler (src/routes/auth.py, lines 44-69): unknown email,
unconfirmed email and failed password verification each yield a 401 with
their own message; otherwise a fresh access+refresh pair is issued and the
new refresh token is persisted on the user row. -/
def login (username password : String) (now : Nat) (db : List User) :
    Except PyError TokenResponse × List User :=
  match get_user_by_email username db with
  | none => (Except.error (PyError.httpError 401 EMAIL_NOT_FOUND), db)
  | some user =>
      if ¬ user.confirmed then
        (Except.error (PyError.httpError 401 EMAIL_NOT_CONFIRMED), db)
      else if ¬ verify_password password user.password then
        (Except.error (PyError.httpError 401 INCORRECT_PASSWORD), db)
      else
        let access_token := create_access_token [("sub", JVal.s user.email)] none now
        let refresh_tok := create_refresh_token [("sub", JVal.s user.email)] none now
        (Except.ok
          { access_token := access_token, refresh_token := refresh_tok,
            token_type := "bearer" },
         update_token user (some refresh_tok) db)

/-- The `refresh_token` handler (src/routes/auth.py, lines 72-93): decode the
presented refresh token (any exception escaping `decode_refresh_token`
propagates with the store untouched); on a subject whose row is absent the
unchecked `user.refresh_token` access raises `AttributeError`; on a
byte-for-byte mismatch with the persisted token, clear the persisted token
and answer 401 invalid-refresh-token; on a match, issue and persist a new
pair. -/
def refresh_token_route (credentials : JWT) (now : Nat) (db : List User) :
    Except PyError TokenResponse × List User :=
  match decode_refresh_token credentials now with
  | Except.error e => (Except.error e, db)
  | Except.ok email =>
      match get_user_by_email email db with
      | none => (Except.error PyError.attributeError, db)
      | some user =>
          if user.refresh_token ≠ some credentials then
            (Except.error (PyError.httpError 401 INVALID_REFRESH_TOKEN),
             update_token user none db)
          else
            let access_token := create_access_token [("sub", JVal.s email)] none now
            let refresh_tok := create_refresh_token [("sub", JVal.s email)] none now
            (Except.ok
              { access_token := access_token, refresh_token := refresh_tok,
                token_type := "bearer" },
             update_token user (some refresh_tok) db)

/-- The `confirmed_email` handler (src/routes/auth.py, lines 96-112): extract
the subject from the confirmation token, 400 when no such user exists,
no-op success message when the account is already confirmed, otherwise set
the confirmed flag and report success. -/
def confirmed_email_route (token : JWT) (now : Nat) (db : List User) :
    Except PyError String × List User :=
  match get_email_from_token token now with
  | Except.error e => (Except.error e, db)
  | Except.ok email =>
      match get_user_by_email email db with
      | none => (Except.error (PyError.httpError 400 USER_NOT_FOUND), db)
      | some user =>
          if user.confirmed then
            (Except.ok "Verification has already been passed", db)
          else
            (Except.ok "Verification successful", users_confirmed_email email db)

/-- SQL `column ILIKE \x25q\x25`: case-insensitive substring containment. -/
def sqlContains (value q : String) : Bool :=
  q = "" ∨ 2 ≤ (String.splitOn value.toLower q.toLower).length

/-- The `WHERE`-clause disjunction shared by the two contact listings:
name, lastname or email contains the query, case-insensitively. -/
def contactMatches (q : String) (c : Contact) : Bool :=
  sqlContains c.name q || sqlContains c.lastname q || sqlContains c.email q

/-- `get_contacts` (src/repository/contacts.py, lines 10-30): rows owned by
`user`, optionally filtered by the query, paginated with offset/limit
(`LIMIT`/`OFFSET` apply after the `WHERE` clause in the emitted SQL).
Python's `if query:` is false for both `None` and the empty string. -/
def get_contacts (limit offset : Nat) (query : Option String)
    (db : List Contact) (user : User) : List Contact :=
  let owned := List.filter (fun c => c.user_id = user.id) db
  let rows :=
    match query with
    | some q => if q ≠ "" then List.filter (contactMatches q) owned else owned
    | none => owned
  List.take limit (List.drop offset rows)

/-- `get_all_contacts` (src/repository/contacts.py, lines 33-52): all rows of
the contacts table regardless of owner, same optional filter and
pagination. -/
def get_all_contacts (limit offset : Nat) (query : Option String)
    (db : List Contact) : List Contact :=
  let rows :=
    match query with
    | some q => if q ≠ "" then List.filter (contactMatches q) db else db
    | none => db
  List.take limit (List.drop offset rows)

/-- `get_contact` (src/repository/contacts.py, lines 55-66): the first row
matching both the requested id and the caller as owner. -/
def get_contact (contact_id : Nat) (db : List Contact) (user : User) :
    Option Contact :=
  List.find? (fun c => c.id = contact_id && c.user_id = user.id) db

/-- `RoleAccess` (src/services/roles.py, lines 7-12): a dependency holding
the route's statically declared allow-set. -/
structure RoleAccess where
  allowed_roles : List Role
deriving DecidableEq, Repr

/-- `RoleAccess.__call__` (src/services/roles.py, lines 14-24): raise a 403
FORBIDDEN unless the resolved identity's role is in the allow-set;
otherwise pass silently. -/
def RoleAccess.call (self : RoleAccess) (user : User) : Except PyError Unit :=
  if user.role ∉ self.allowed_roles then
    Except.error (PyError.httpError 403 "FORBIDDEN")
  else
    Except.ok ()

/-- `access_to_route_all` (src/routes/contacts.py, line 14): the allow-set
declared once, at route registration time, for the all-contacts path. -/
def access_to_route_all : RoleAccess :=
  { allowed_roles := [Role.admin, Role.moderator] }

/-- The `GET /contacts/all` handler (src/routes/contacts.py, lines 38-56):
the `RoleAccess` dependency runs before the handler body; only when it
passes is the unscoped listing executed. -/
def get_all_contacts_route (limit offset : Nat) (query : Option String)
    (db : List Contact) (user : User) : Except PyError (List Contact) :=
  match RoleAccess.call access_to_route_all user with
  | Except.error e => Except.error e
  | Except.ok _ => Except.ok (get_all_contacts limit offset query db)

/-- The `GET /contacts/\x7bcontact_id\x7d` handler (src/routes/contacts.py,
lines 59-74): ownership-scoped lookup, 404 when it yields nothing. -/
def get_contact_route (contact_id : Nat) (db : List Contact) (user : User) :
    Except PyError Contact :=
  match get_contact contact_id db user with
  | none => Except.error (PyError.httpError 404 "Contact not found")
  | some contact => Except.ok contact

/-- A sample confirmed user row, for concrete evaluations. -/
def johnUser : User :=
  { id := 1
    username := "john"
    email := "john@x.com"
    password := get_password_hash "secret1"
    confirmed := true
    refresh_token := none
    avatar := none
    role := Role.regular }

/-- The sample user before email confirmation. -/
def johnUnconfirmed : User :=
  { johnUser with confirmed := false }

/-- A sample contact row owned by a user other than `johnUser`. -/
def bobContact : Contact :=
  { id := 10
    name := "Bob"
    lastname := "Builder"
    email := "bob@x.com"
    phone := "123"
    user_id := 2 }

/-! ### Helper lemmas about the store -/

/-- A row found by email is a member of the table and carries that email. -/
theorem get_user_by_email_mem {email : String} {db : List User} {u : User}
    (h : get_user_by_email email db = some u) : u ∈ db ∧ u.email = email := by
  refine ⟨List.mem_of_find?_eq_some h, ?_⟩
  have := List.find?_some h
  simpa using this

/-- After `update_token` on a row found by email, looking the email up again
yields that row with the new refresh token, provided primary keys are
unique. -/
theorem update_token_get_user (u : User) (tok : Option JWT) (db : List User)
    (hfind : get_user_by_email u.email db = some u)
    (hid : (List.map User.id db).Nodup) :
    get_user_by_email u.email (update_token u tok db) =
      some { u with refresh_token := tok } := by
  induction db with
  | nil => simp [get_user_by_email] at hfind
  | cons v rest ih =>
      rw [List.map_cons, List.nodup_cons] at hid
      by_cases hv : v.email = u.email
      · have hvu : v = u := by
          simpa [get_user_by_email, List.find?, hv] using hfind
        subst hvu
        simp [update_token, updateFirstRow, get_user_by_email, List.find?]
      · have hfind' : get_user_by_email u.email rest = some u := by
          simpa [get_user_by_email, List.find?, hv] using hfind
        have hmem : u ∈ rest := List.mem_of_find?_eq_some hfind'
        have hne : ¬ v.id = u.id := by
          intro he
          exact hid.1 (he ▸ List.mem_map_of_mem User.id hmem)
        have hrec := ih hfind' hid.2
        simp only [update_token, updateFirstRow, hne, if_neg,
          decide_eq_true_eq] at hrec ⊢
        simpa [get_user_by_email, List.find?, hv, hne] using hrec

/-- After `users_confirmed_email` on a row found by email, looking the email
up again yields that row with the confirmed flag set. -/
theorem users_confirmed_email_get (email : String) (db : List User) (u : User)
    (hfind : get_user_by_email email db = some u) :
    get_user_by_email email (users_confirmed_email email db) =
      some { u with confirmed := true } := by
  induction db with
  | nil => simp [get_user_by_email] at hfind
  | cons v rest ih =>
      by_cases hv : v.email = email
      · have hvu : v = u := by
          simpa [get_user_by_email, List.find?, hv] using hfind
        subst hvu
        simp [users_confirmed_email, updateFirstRow, hv, get_user_by_email,
          List.find?]
      · have hfind' : get_user_by_email email rest = some u := by
          simpa [get_user_by_email, List.find?, hv] using hfind
        have hrec := ih hfind'
        simpa [users_confirmed_email, updateFirstRow, hv, get_user_by_email,
          List.find?] using hrec

/-- `users_confirmed_email` only ever raises confirmed flags: it never
clears one, and it changes no other column of any row. -/
theorem users_confirmed_email_monotone (email : String) (db : List User) :
    List.Forall₂
      (fun o n => (o.confirmed = true → n.confirmed = true) ∧
        (n = o ∨ n = { o with confirmed := true }))
      db (users_confirmed_email email db) := by
  induction db with
  | nil => simp [users_confirmed_email, updateFirstRow]
  | cons v rest ih =>
      by_cases hv : v.email = email
      · have hrw : users_confirmed_email email (v :: rest) =
            { v with confirmed := true } :: rest := by
          simp [users_confirmed_email, updateFirstRow, hv]
        rw [hrw]
        exact List.Forall₂.cons ⟨fun _ => rfl, Or.inr rfl⟩
          (List.forall₂_same.2 (fun x _ => ⟨fun h => h, Or.inl rfl⟩))
      · have hrw : users_confirmed_email email (v :: rest) =
            v :: users_confirmed_email email rest := by
          simp [users_confirmed_email, updateFirstRow, hv]
        rw [hrw]
        exact List.Forall₂.cons ⟨fun h => h, Or.inl rfl⟩ ih

/-! ### Computation lemmas for the token layer -/

/-- Payload produced by `create_access_token` with the default lifetime. -/
theorem create_access_token_none (u : String) (t0 : Nat) :
    create_access_token [("sub", JVal.s u)] none t0 =
      jwtEncode
        [("sub", JVal.s u), ("iat", JVal.n t0),
         ("exp", JVal.n (t0 + 15 * 60)), ("scope", JVal.s "access_token")]
        SECRET_KEY := rfl

/-- Payload produced by `create_refresh_token` with the default lifetime. -/
theorem create_refresh_token_none (u : String) (t0 : Nat) :
    create_refresh_token [("sub", JVal.s u)] none t0 =
      jwtEncode
        [("sub", JVal.s u), ("iat", JVal.n t0),
         ("exp", JVal.n (t0 + 7 * 24 * 60 * 60)),
         ("scope", JVal.s "refresh_token")]
        SECRET_KEY := rfl

/-- Payload produced by `create_email_token`. -/
theorem create_email_token_eq (u : String) (t0 : Nat) :
    create_email_token [("sub", JVal.s u)] t0 =
      jwtEncode
        [("sub", JVal.s u), ("iat", JVal.n t0),
         ("exp", JVal.n (t0 + 24 * 60 * 60))]
        SECRET_KEY := rfl

/-- Decoding a token signed with the service secret succeeds while its
`exp` claim lies in the future. -/
theorem jwtDecode_encode (p : Payload) (now e : Nat)
    (hexp : Payload.get? p "exp" = some (JVal.n e)) (h : now < e) :
    jwtDecode (jwtEncode p SECRET_KEY) SECRET_KEY now = some p := by
  simp [jwtDecode, jwtEncode, hexp, h]

/-- C1: the refresh verifier reads the claim key `score`, which no issued
token carries, so every unexpired service-issued token — refresh or access —
makes `decode_refresh_token` raise an uncaught `KeyError`: it neither
returns the subject of a valid refresh token nor answers the wrong-scope
401 on an access token. -/
theorem claim1_refresh_verifier_keyError (u : String) (t0 now : Nat)
    (h7 : now < t0 + 7 * 24 * 60 * 60) (h15 : now < t0 + 15 * 60) :
    decode_refresh_token (create_refresh_token [("sub", JVal.s u)] none t0) now
        = Except.error (PyError.keyError "score") ∧
    decode_refresh_token (create_access_token [("sub", JVal.s u)] none t0) now
        = Except.error (PyError.keyError "score") := by
  have hdec7 :=
    jwtDecode_encode
      [("sub", JVal.s u), ("iat", JVal.n t0),
       ("exp", JVal.n (t0 + 7 * 24 * 60 * 60)), ("scope", JVal.s "refresh_token")]
      now (t0 + 7 * 24 * 60 * 60) rfl h7
  have hdec15 :=
    jwtDecode_encode
      [("sub", JVal.s u), ("iat", JVal.n t0),
       ("exp", JVal.n (t0 + 15 * 60)), ("scope", JVal.s "access_token")]
      now (t0 + 15 * 60) rfl h15
  constructor
  · rw [create_refresh_token_none]
    simp [decode_refresh_token, hdec7, Payload.get?]
  · rw [create_access_token_none]
    simp [decode_refresh_token, hdec15, Payload.get?]

/-- C1 witness: a refresh token issued at time 0 for a concrete subject,
presented one second later. -/
theorem claim1_refresh_verifier_keyError_witness :
    decode_refresh_token
        (create_refresh_token [("sub", JVal.s "john@x.com")] none 0) 1
      = Except.error (PyError.keyError "score") :=
  (claim1_refresh_verifier_keyError "john@x.com" 0 1 (by decide) (by decide)).1

/-- C2: a duplicate-email signup does reach the 409 conflict, but the
handler's blanket `except Exception` re-raises it as a 400 whose detail is
the printed exception, so the transport-level error surfaced to the caller
is 400, not 409; the store is left unchanged (no new row). -/
theorem claim2_signup_duplicate (body : UserSchema) (avatar : Option String)
    (next_id : Nat) (db : List User) (u : User)
    (hdup : get_user_by_email body.email db = some u) :
    signup body avatar next_id db =
      (Except.error
         (PyError.httpError 400
            (strOfPyError (PyError.httpError 409 ACCOUNT_EXIST))), db) := by
  simp [signup, signup_inner, hdup]

/-- C2 witness: signing up again with an email that already has a row. -/
theorem claim2_signup_duplicate_witness :
    signup { username := "john2", email := "john@x.com", password := "secret2" }
        none 2 [johnUser] =
      (Except.error (PyError.httpError 400 "409: Account already exists"),
       [johnUser]) :=
  claim2_signup_duplicate
    { username := "john2", email := "john@x.com", password := "secret2" }
    none 2 [johnUser] johnUser (by decide)

/-- C3: because `decode_refresh_token` raises an uncaught `KeyError` on every
service-issued refresh token, the refresh endpoint aborts before the
byte-for-byte comparison on every request: no refresh ever succeeds or
rotates the persisted token, and a mismatching presented token is answered
with the unhandled `KeyError` — not `InvalidRefreshToken` — while the
persisted refresh token is left in place rather than cleared. -/
theorem claim3_refresh_route_never_reaches_rotation (u : String)
    (t0 now : Nat) (db : List User) (h7 : now < t0 + 7 * 24 * 60 * 60) :
    refresh_token_route (create_refresh_token [("sub", JVal.s u)] none t0)
        now db
      = (Except.error (PyError.keyError "score"), db) := by
  have hdec7 :=
    jwtDecode_encode
      [("sub", JVal.s u), ("iat", JVal.n t0),
       ("exp", JVal.n (t0 + 7 * 24 * 60 * 60)), ("scope", JVal.s "refresh_token")]
      now (t0 + 7 * 24 * 60 * 60) rfl h7
  have hdec :
      decode_refresh_token
          (create_refresh_token [("sub", JVal.s u)] none t0) now
        = Except.error (PyError.keyError "score") := by
    rw [create_refresh_token_none]
    simp [decode_refresh_token, hdec7, Payload.get?]
  simp [refresh_token_route, hdec]

/-- C3 witness: a user whose persisted refresh token differs from the
presented one still gets the `KeyError` and keeps the persisted token. -/
theorem claim3_refresh_route_never_reaches_rotation_witness :
    refresh_token_route
        (create_refresh_token [("sub", JVal.s "john@x.com")] none 0) 1
        [{ johnUser with
            refresh_token :=
              some (create_refresh_token [("sub", JVal.s "john@x.com")] none 5) }]
      = (Except.error (PyError.keyError "score"),
         [{ johnUser with
             refresh_token :=
               some (create_refresh_token [("sub", JVal.s "john@x.com")] none 5) }]) :=
  claim3_refresh_route_never_reaches_rotation "john@x.com" 0 1
    [{ johnUser with
        refresh_token :=
          some (create_refresh_token [("sub", JVal.s "john@x.com")] none 5) }]
    (by decide)

/-- C4: login answers 401 email-not-found on an unknown email, 401
email-not-confirmed on an unconfirmed account, 401 incorrect-password on a
failed hash verification, and otherwise issues a fresh access/refresh pair,
persisting the new refresh token on the user's row (overwriting any prior
value, primary keys being unique). -/
theorem claim4_login_spec (username password : String) (now : Nat)
    (db : List User) :
    (get_user_by_email username db = none →
        login username password now db =
          (Except.error (PyError.httpError 401 EMAIL_NOT_FOUND), db)) ∧
    (∀ u, get_user_by_email username db = some u → u.confirmed = false →
        login username password now db =
          (Except.error (PyError.httpError 401 EMAIL_NOT_CONFIRMED), db)) ∧
    (∀ u, get_user_by_email username db = some u → u.confirmed = true →
        verify_password password u.password = false →
        login username password now db =
          (Except.error (PyError.httpError 401 INCORRECT_PASSWORD), db)) ∧
    (∀ u, get_user_by_email username db = some u → u.confirmed = true →
        verify_password password u.password = true →
        login username password now db =
          (Except.ok
            { access_token :=
                create_access_token [("sub", JVal.s u.email)] none now
              refresh_token :=
                create_refresh_token [("sub", JVal.s u.email)] none now
              token_type := "bearer" },
           update_token u
             (some (create_refresh_token [("sub", JVal.s u.email)] none now))
             db) ∧
        ((List.map User.id db).Nodup →
          get_user_by_email username (login username password now db).2 =
            some { u with
              refresh_token :=
                some (create_refresh_token [("sub", JVal.s u.email)] none now) })) := by
  refine ⟨?_, ?_, ?_, ?_⟩
  · intro h
    simp [login, h]
  · intro u hu hconf
    simp [login, hu, hconf]
  · intro u hu hconf hpw
    simp [login, hu, hconf, hpw]
  · intro u hu hconf hpw
    have hlogin : login username password now db =
        (Except.ok
          { access_token :=
              create_access_token [("sub", JVal.s u.email)] none now
            refresh_token :=
              create_refresh_token [("sub", JVal.s u.email)] none now
            token_type := "bearer" },
         update_token u
           (some (create_refresh_token [("sub", JVal.s u.email)] none now))
           db) := by
      simp [login, hu, hconf, hpw]
    refine ⟨hlogin, fun hid => ?_⟩
    have hue : u.email = username := (get_user_by_email_mem hu).2
    rw [hlogin]
    subst hue
    exact update_token_get_user u _ db hu hid

/-- C4 witness: a confirmed user logging in with the right password gets a
token pair and the row now stores the fresh refresh token. -/
theorem claim4_login_spec_witness :
    login "john@x.com" "secret1" 5 [johnUser] =
      (Except.ok
        { access_token :=
            create_access_token [("sub", JVal.s "john@x.com")] none 5
          refresh_token :=
            create_refresh_token [("sub", JVal.s "john@x.com")] none 5
          token_type := "bearer" },
       update_token johnUser
         (some (create_refresh_token [("sub", JVal.s "john@x.com")] none 5))
         [johnUser]) :=
  ((claim4_login_spec "john@x.com" "secret1" 5 [johnUser]).2.2.2 johnUser
    (by decide) (by decide) (by decide)).1

/-- C6: the single-contact lookup only ever returns a row owned by the
caller — for a contact owned by any other user it answers 404 — and the
all-contacts route succeeds only for moderator or admin callers, answering
403 FORBIDDEN for any role outside the registered allow-set. -/
theorem claim6_ownership_and_all_route (A : User) (contact_id : Nat)
    (db : List Contact) :
    (∀ c, get_contact_route contact_id db A = Except.ok c →
        c ∈ db ∧ c.id = contact_id ∧ c.user_id = A.id) ∧
    ((∀ c ∈ db, c.id = contact_id → c.user_id ≠ A.id) →
        get_contact_route contact_id db A =
          Except.error (PyError.httpError 404 "Contact not found")) ∧
    (∀ limit offset query res,
        get_all_contacts_route limit offset query db A = Except.ok res →
        A.role = Role.moderator ∨ A.role = Role.admin) ∧
    (A.role = Role.regular →
        ∀ limit offset query,
          get_all_contacts_route limit offset query db A =
            Except.error (PyError.httpError 403 "FORBIDDEN")) := by
  refine ⟨?_, ?_, ?_, ?_⟩
  · intro c hc
    have hfind : get_contact contact_id db A = some c := by
      unfold get_contact_route at hc
      cases h : get_contact contact_id db A with
      | none => rw [h] at hc; cases hc
      | some c' => rw [h] at hc; cases hc; rfl
    have hpred := List.find?_some hfind
    have hmem := List.mem_of_find?_eq_some hfind
    simp only [Bool.and_eq_true, decide_eq_true_eq] at hpred
    exact ⟨hmem, hpred.1, hpred.2⟩
  · intro hall
    have hnone : get_contact contact_id db A = none := by
      apply List.find?_eq_none.2
      intro c hc
      simp only [Bool.and_eq_true, decide_eq_true_eq, not_and]
      exact fun hid => hall c hc hid
    simp [get_contact_route, hnone]
  · intro limit offset query res hres
    by_cases h : A.role ∈ access_to_route_all.allowed_roles
    · simp only [access_to_route_all, List.mem_cons,
        List.mem_singleton, List.not_mem_nil, or_false] at h
      rcases h with h | h
      · exact Or.inr h
      · exact Or.inl h
    · simp [get_all_contacts_route, RoleAccess.call, h] at hres
  · intro hrole limit offset query
    simp [get_all_contacts_route, RoleAccess.call, access_to_route_all, hrole]

/-- C6 witness: a caller with id 1 asking for a contact owned by user 2 gets
404, and a regular-role caller is rejected from the all-contacts route. -/
theorem claim6_ownership_and_all_route_witness :
    get_contact_route 10 [bobContact] johnUser =
        Except.error (PyError.httpError 404 "Contact not found") ∧
    get_all_contacts_route 10 0 none [bobContact] johnUser =
        Except.error (PyError.httpError 403 "FORBIDDEN") :=
  ⟨(claim6_ownership_and_all_route johnUser 10 [bobContact]).2.1
      (by decide),
   (claim6_ownership_and_all_route johnUser 10 [bobContact]).2.2.2
      (by decide) 10 0 none⟩

/-- C7: the role gate permits a resolved identity exactly when its role is a
member of the declared allow-set, answering 403 FORBIDDEN otherwise; the
all-contacts allow-set is the constant fixed at route registration. -/
theorem claim7_role_gate (S : List Role) (u : User) :
    (RoleAccess.call { allowed_roles := S } u = Except.ok () ↔ u.role ∈ S) ∧
    (u.role ∉ S →
        RoleAccess.call { allowed_roles := S } u =
          Except.error (PyError.httpError 403 "FORBIDDEN")) ∧
    access_to_route_all =
      { allowed_roles := [Role.admin, Role.moderator] } := by
  refine ⟨?_, fun h => by simp [RoleAccess.call, h], rfl⟩
  by_cases h : u.role ∈ S <;> simp [RoleAccess.call, h]

/-- C7 witness: the gate at the registered all-contacts allow-set rejects a
regular user and admits an admin. -/
theorem claim7_role_gate_witness :
    RoleAccess.call access_to_route_all johnUser =
        Except.error (PyError.httpError 403 "FORBIDDEN") ∧
    RoleAccess.call access_to_route_all { johnUser with role := Role.admin } =
        Except.ok () :=
  ⟨(claim7_role_gate [Role.admin, Role.moderator] johnUser).2.1 (by decide),
   (claim7_role_gate [Role.admin, Role.moderator]
      { johnUser with role := Role.admin }).1.2 (by decide)⟩

/-- C5: on a valid access token the gate consults the cache first — a live
cache hit is returned as-is, with any credential store whatsoever (the store
is never queried); a miss queries the store by the subject email, answering
the 401 credentials error when no row exists and otherwise returning the
loaded row after caching it; the written entry reads back for exactly 300
seconds and is gone afterwards. -/
theorem claim5_auth_gate_cache (token : JWT) (now : Nat) (cache : Cache)
    (payload : Payload) (email : String)
    (hdec : jwtDecode token SECRET_KEY now = some payload)
    (hscope : Payload.get? payload "scope" = some (JVal.s "access_token"))
    (hsub : Payload.get? payload "sub" = some (JVal.s email)) :
    (∀ u, Cache.read cache email now = some u →
        ∀ db, get_current_user token now cache db = Except.ok (u, cache)) ∧
    (Cache.read cache email now = none →
        ∀ db,
          (get_user_by_email email db = none →
              get_current_user token now cache db =
                Except.error
                  (PyError.httpError 401 "Could not validate credentials")) ∧
          (∀ u, get_user_by_email email db = some u →
              get_current_user token now cache db =
                Except.ok (u, Cache.setex cache email u 300 now))) ∧
    (∀ u t, t < now + 300 →
        Cache.read (Cache.setex cache email u 300 now) email t = some u) ∧
    (∀ u t, now + 300 ≤ t →
        Cache.read (Cache.setex cache email u 300 now) email t = none) := by
  refine ⟨?_, ?_, ?_, ?_⟩
  · intro u hu db
    simp [get_current_user, hdec, hscope, hsub, hu]
  · intro hmiss db
    constructor
    · intro hnone
      simp [get_current_user, hdec, hscope, hsub, hmiss, hnone]
    · intro u hu
      simp [get_current_user, hdec, hscope, hsub, hmiss, hu]
  · intro u t ht
    simp [Cache.read, Cache.setex, List.find?, ht]
  · intro u t ht
    simp [Cache.read, Cache.setex, List.find?, Nat.not_lt.2 ht]

/-- C5 witness: a concrete cache miss loads the row from the store, caches
it for 300 seconds, and the entry reads back at time 300 but not 301. -/
theorem claim5_auth_gate_cache_witness :
    get_current_user (create_access_token [("sub", JVal.s "john@x.com")] none 0)
        1 [] [johnUser]
      = Except.ok (johnUser, Cache.setex [] "john@x.com" johnUser 300 1) ∧
    Cache.read (Cache.setex [] "john@x.com" johnUser 300 1) "john@x.com" 300
      = some johnUser ∧
    Cache.read (Cache.setex [] "john@x.com" johnUser 300 1) "john@x.com" 301
      = none := by
  have h := claim5_auth_gate_cache
    (create_access_token [("sub", JVal.s "john@x.com")] none 0) 1 []
    [("sub", JVal.s "john@x.com"), ("iat", JVal.n 0),
     ("exp", JVal.n (0 + 15 * 60)), ("scope", JVal.s "access_token")]
    "john@x.com" (by decide) (by decide) (by decide)
  exact ⟨((h.2.1 (by decide) [johnUser]).2 johnUser (by decide)),
         h.2.2.1 johnUser 300 (by decide),
         h.2.2.2 johnUser 301 (by decide)⟩

/-- C8: issuing an access token for subject `u` and presenting it to the
authentication gate before the 15-minute expiry verifies successfully and
resolves exactly the subject `u`: the gate returns the store's row for `u`.
-/
theorem claim8_access_token_roundtrip (u : String) (U : User) (t0 now : Nat)
    (cache : Cache) (db : List User)
    (hmiss : Cache.read cache u now = none)
    (hfind : get_user_by_email u db = some U)
    (hexp : now < t0 + 15 * 60) :
    get_current_user (create_access_token [("sub", JVal.s u)] none t0) now
        cache db
      = Except.ok (U, Cache.setex cache u U 300 now) := by
  have hdec :=
    jwtDecode_encode
      [("sub", JVal.s u), ("iat", JVal.n t0),
       ("exp", JVal.n (t0 + 15 * 60)), ("scope", JVal.s "access_token")]
      now (t0 + 15 * 60) rfl hexp
  rw [create_access_token_none]
  simp [get_current_user, hdec, Payload.get?, List.find?, hmiss, hfind]

/-- C8 witness: concrete issue-then-verify round trip one second after
issuance. -/
theorem claim8_access_token_roundtrip_witness :
    get_current_user (create_access_token [("sub", JVal.s "john@x.com")] none 0)
        1 [] [johnUser]
      = Except.ok (johnUser, Cache.setex [] "john@x.com" johnUser 300 1) :=
  claim8_access_token_roundtrip "john@x.com" johnUser 0 1 [] [johnUser]
    (by decide) (by decide) (by decide)

/-- C9: redeeming a valid confirmation token for an unconfirmed account sets
the confirmed flag and reports success; redeeming again is a no-op success
leaving the store unchanged; an already-confirmed account gets the no-op
message at once; and the route never lowers a confirmed flag — the flag is
monotone false→true. -/
theorem claim9_confirm_email_once (token : JWT) (now : Nat) (db : List User)
    (email : String) (u : User)
    (htok : get_email_from_token token now = Except.ok email)
    (hfind : get_user_by_email email db = some u) :
    (u.confirmed = false →
        confirmed_email_route token now db =
          (Except.ok "Verification successful",
           users_confirmed_email email db) ∧
        get_user_by_email email (users_confirmed_email email db) =
          some { u with confirmed := true } ∧
        confirmed_email_route token now (users_confirmed_email email db) =
          (Except.ok "Verification has already been passed",
           users_confirmed_email email db)) ∧
    (u.confirmed = true →
        confirmed_email_route token now db =
          (Except.ok "Verification has already been passed", db)) ∧
    List.Forall₂ (fun o n => o.confirmed = true → n.confirmed = true)
      db (confirmed_email_route token now db).2 := by
  have hafter := users_confirmed_email_get email db u hfind
  refine ⟨?_, ?_, ?_⟩
  · intro hconf
    refine ⟨by simp [confirmed_email_route, htok, hfind, hconf], hafter, ?_⟩
    simp [confirmed_email_route, htok, hafter]
  · intro hconf
    simp [confirmed_email_route, htok, hfind, hconf]
  · by_cases hconf : u.confirmed
    · have : (confirmed_email_route token now db).2 = db := by
        simp [confirmed_email_route, htok, hfind, hconf]
      rw [this]
      exact List.forall₂_same.2 (fun x _ h => h)
    · have : (confirmed_email_route token now db).2 =
          users_confirmed_email email db := by
        simp [confirmed_email_route, htok, hfind, hconf]
      rw [this]
      exact (users_confirmed_email_monotone email db).imp (fun _ _ h => h.1)

/-- C9 witness: a concrete unconfirmed account is confirmed by its email
token, and a second redemption is a no-op success. -/
theorem claim9_confirm_email_once_witness :
    confirmed_email_route (create_email_token [("sub", JVal.s "john@x.com")] 0)
        1 [johnUnconfirmed]
      = (Except.ok "Verification successful",
         users_confirmed_email "john@x.com" [johnUnconfirmed]) ∧
    confirmed_email_route (create_email_token [("sub", JVal.s "john@x.com")] 0)
        1 (users_confirmed_email "john@x.com" [johnUnconfirmed])
      = (Except.ok "Verification has already been passed",
         users_confirmed_email "john@x.com" [johnUnconfirmed]) := by
  have h := claim9_confirm_email_once
    (create_email_token [("sub", JVal.s "john@x.com")] 0) 1 [johnUnconfirmed]
    "john@x.com" johnUnconfirmed (by rfl) (by decide)
  exact ⟨(h.1 (by decide)).1, (h.1 (by decide)).2.2⟩

/-- C10: the confirmation-token decoder checks no scope tag, so an access
token and a refresh token both pass it, each yielding their subject, and
either one presented to the confirmation endpoint confirms the subject's
account. -/
theorem claim10_confirmation_ignores_scope (u : String) (U : User)
    (t0 now : Nat) (db : List User)
    (hfind : get_user_by_email u db = some U) (hconf : U.confirmed = false)
    (h15 : now < t0 + 15 * 60) (h7 : now < t0 + 7 * 24 * 60 * 60) :
    get_email_from_token (create_access_token [("sub", JVal.s u)] none t0) now
        = Except.ok u ∧
    get_email_from_token (create_refresh_token [("sub", JVal.s u)] none t0) now
        = Except.ok u ∧
    confirmed_email_route (create_access_token [("sub", JVal.s u)] none t0)
        now db
      = (Except.ok "Verification successful", users_confirmed_email u db) ∧
    confirmed_email_route (create_refresh_token [("sub", JVal.s u)] none t0)
        now db
      = (Except.ok "Verification successful", users_confirmed_email u db) ∧
    get_user_by_email u (users_confirmed_email u db) =
        some { U with confirmed := true } := by
  have hdec15 :=
    jwtDecode_encode
      [("sub", JVal.s u), ("iat", JVal.n t0),
       ("exp", JVal.n (t0 + 15 * 60)), ("scope", JVal.s "access_token")]
      now (t0 + 15 * 60) rfl h15
  have hdec7 :=
    jwtDecode_encode
      [("sub", JVal.s u), ("iat", JVal.n t0),
       ("exp", JVal.n (t0 + 7 * 24 * 60 * 60)),
       ("scope", JVal.s "refresh_token")]
      now (t0 + 7 * 24 * 60 * 60) rfl h7
  have hacc :
      get_email_from_token (create_access_token [("sub", JVal.s u)] none t0)
          now = Except.ok u := by
    rw [create_access_token_none]
    simp [get_email_from_token, hdec15, Payload.get?, List.find?]
  have href :
      get_email_from_token (create_refresh_token [("sub", JVal.s u)] none t0)
          now = Except.ok u := by
    rw [create_refresh_token_none]
    simp [get_email_from_token, hdec7, Payload.get?, List.find?]
  refine ⟨hacc, href, ?_, ?_, users_confirmed_email_get u db U hfind⟩
  · simp [confirmed_email_route, hacc, hfind, hconf]
  · simp [confirmed_email_route, href, hfind, hconf]

/-- C10 witness: a concrete access token confirms the unconfirmed sample
account through the confirmation endpoint. -/
theorem claim10_confirmation_ignores_scope_witness :
    confirmed_email_route
        (create_access_token [("sub", JVal.s "john@x.com")] none 0) 1
        [johnUnconfirmed]
      = (Except.ok "Verification successful",
         users_confirmed_email "john@x.com" [johnUnconfirmed]) :=
  (claim10_confirmation_ignores_scope "john@x.com" johnUnconfirmed 0 1
    [johnUnconfirmed] (by decide) (by decide) (by decide) (by decide)).2.2.1

end ContactsApi
